import Mathlib

/-!
Verification development for the pysap example scripts
(`examples/hdb_sql.py`, `examples/diag_interceptor.py`,
`examples/ms_messager.py`) and the core protocol components they use.
Where a component lives in the pysap library rather than in the example
scripts (the SAPNI frame codec, the layer composition machinery, the
SAPHDB handshake driver and the request-response primitive), the
definition is modelled from the specification document and marked as such
in its doc comment.
-/

set_option autoImplicit false

namespace Pysap

/-! ## `examples/hdb_sql.py`: option record and validation -/

/-- The command-line options of `hdb_sql.py` as produced by argparse.
Optional string arguments are `Option String` (`none` = not given);
defaults are applied by the caller that builds the record. -/
structure HdbOptions where
  remote_host : Option String
  remote_port : Nat
  route_string : Option String
  tls : Bool
  method : String
  username : Option String
  password : Option String
  jwt_file : Option String
  jwt_cert : Option String
  jwt_issuer : Option String
  jwt_claim : String
  saml_assertion : Option String
  session_cookie : Option String
  pid : String
  hostname : Option String
  verbose : Bool
  deriving DecidableEq, Repr

/-- Python truthiness of an optional string: `None` and `""` are falsy. -/
def truthy : Option String → Bool
  | none => false
  | some s => !s.isEmpty

/-- Modelled from the spec: the registered authentication strategy names
(the keys of `saphdb_auth_methods` in `pysap.SAPHDB`, which is not part of
the example scripts). The spec fixes the set: password-derived SCRAM with
plain SHA-256 or PBKDF2-SHA256 hashing, JSON-style signed-assertion token
(JWT), SAML bearer assertion, and pre-established session cookie. -/
def saphdb_auth_methods : List String :=
  ["SCRAMSHA256", "SCRAMPBKDF2SHA256", "JWT", "SAML", "SessionCookie"]

/-- The validation part of `parse_options` in `hdb_sql.py` (lines 86-109).
`parser.error msg` aborts the process before `main` does anything further,
so it is modelled as `Except.error msg`. `py_jwt` records whether the
optional PyJWT import succeeded. -/
def parse_options (py_jwt : Bool) (o : HdbOptions) : Except String HdbOptions :=
  if !truthy o.remote_host then
    .error "Remote host is required"
  else if !(saphdb_auth_methods.contains o.method) then
    .error "Invalid authentication method"
  else if !truthy o.username && !(["SAML"].contains o.method) then
    .error "Username needs to be provided"
  else if o.method == "JWT" &&
      !(truthy o.jwt_file || (truthy o.jwt_cert && truthy o.jwt_issuer)) then
    .error "JWT file or a signing certificate and issuer need to be provided for JWT authentication"
  else if o.method == "JWT" && truthy o.jwt_cert && !py_jwt then
    .error "JWT crafting requires the PyJWT library installed"
  else if o.method == "SAML" && !truthy o.saml_assertion then
    .error "SAML bearer assertion file need to be provided for SAML authentication"
  else if (["SCRAMSHA256", "SCRAMPBKDF2SHA256"].contains o.method) && !truthy o.password then
    .error "Password need to be provided for SCRAM-based authentication"
  else if o.method == "SessionCookie" && !truthy o.session_cookie then
    .error "Session cookie need to be provided for SessionCookie authentication"
  else
    .ok o

/-- The authentication method value built by `main` in `hdb_sql.py`
(lines 126-156): one variant per registered strategy class, carrying
exactly the credential material `main` passes to its constructor. -/
inductive AuthMethod where
  | scramSHA256 (username password : String)
  | scramPBKDF2SHA256 (username password : String)
  | jwtToken (username token : String)
  | samlToken (username token : String)
  | sessionCookie (username cookie : String)
  deriving DecidableEq, Repr

/-- The username field carried by an authentication method value. -/
def AuthMethod.username : AuthMethod → String
  | .scramSHA256 u _ => u
  | .scramPBKDF2SHA256 u _ => u
  | .jwtToken u _ => u
  | .samlToken u _ => u
  | .sessionCookie u _ => u

/-- The credential (password, token or cookie) carried by a method value. -/
def AuthMethod.credential : AuthMethod → String
  | .scramSHA256 _ p => p
  | .scramPBKDF2SHA256 _ p => p
  | .jwtToken _ t => t
  | .samlToken _ t => t
  | .sessionCookie _ c => c

/-- The authentication-method construction of `main` in `hdb_sql.py`
(lines 126-156). `readFile path` stands for reading the named file;
`sign username issuer key` stands for the external token signer
(`py_jwt.encode` over the claims dict built on lines 143-148).
`none` is the final `else` branch: `main` logs
"Unsupported authentication method" and returns without connecting. -/
def select_auth_method (readFile : String → String)
    (sign : String → String → String → String) (o : HdbOptions) :
    Option AuthMethod :=
  if o.method == "SAML" then
    some (.samlToken "" (readFile (o.saml_assertion.getD "")))
  else if o.method == "JWT" then
    if truthy o.jwt_file then
      some (.jwtToken (o.username.getD "") (readFile (o.jwt_file.getD "")))
    else if truthy o.jwt_cert then
      some (.jwtToken (o.username.getD "")
        (sign (o.username.getD "") (o.jwt_issuer.getD "")
          (readFile (o.jwt_cert.getD ""))))
    else
      none
  else if o.method == "SCRAMSHA256" then
    some (.scramSHA256 (o.username.getD "") (o.password.getD ""))
  else if o.method == "SCRAMPBKDF2SHA256" then
    some (.scramPBKDF2SHA256 (o.username.getD "") (o.password.getD ""))
  else if o.method == "SessionCookie" then
    some (.sessionCookie (o.username.getD "") (o.session_cookie.getD ""))
  else
    none

/-- The connection class chosen by `main` (lines 121-124): the
TLS-upgrading connection when `--tls` was given, the plain one otherwise. -/
def connection_class (tls : Bool) : String :=
  if tls then "SAPHDBTLSConnection" else "SAPHDBConnection"

/-- The network-facing calls `main` makes on the connection object, in
order (lines 158-175). -/
inductive MainAction where
  | connect
  | initializeExchange
  | authenticate
  | close
  deriving DecidableEq, Repr

/-- The sequence of network-facing calls performed by `main`: nothing at
all when `parse_options` aborts or when no auth method is constructed
(the unsupported-method fallthrough), otherwise
connect / initialize / authenticate / close in that order. -/
def main_network_actions (py_jwt : Bool) (readFile : String → String)
    (sign : String → String → String → String) (o : HdbOptions) :
    List MainAction :=
  match parse_options py_jwt o with
  | .error _ => []
  | .ok opts =>
    match select_auth_method readFile sign opts with
    | none => []
    | some _ => [.connect, .initializeExchange, .authenticate, .close]

/-! ## Frame Codec (modelled from the spec) -/

/-- Modelled from the spec: the Frame Codec (`pysap.SAPNI`, not among the
example scripts) prepends to the payload a 4-byte big-endian length field
equal to the payload length. Bytes are naturals below 256. -/
def encodeLength (n : Nat) : List Nat :=
  [n / 2 ^ 24 % 256, n / 2 ^ 16 % 256, n / 2 ^ 8 % 256, n % 256]

/-- Modelled from the spec: `encode(payload)` = 4-byte big-endian length
field followed by the payload bytes. -/
def encode (payload : List Nat) : List Nat :=
  encodeLength payload.length ++ payload

/-- Result of one decode attempt: a complete frame (payload plus the bytes
left in the buffer after it), or a request for more input. -/
inductive DecodeResult where
  | frame (payload : List Nat) (rest : List Nat)
  | needMoreData
  deriving DecidableEq, Repr

/-- Modelled from the spec: `decode(stream)` reads the 4-byte big-endian
length field, then the payload; if fewer bytes than announced are
buffered it returns `NeedMoreData`, consuming nothing. -/
def decode (stream : List Nat) : DecodeResult :=
  match stream with
  | b0 :: b1 :: b2 :: b3 :: rest =>
    let len := b0 * 2 ^ 24 + b1 * 2 ^ 16 + b2 * 2 ^ 8 + b3
    if rest.length < len then .needMoreData
    else .frame (rest.take len) (rest.drop len)
  | _ => .needMoreData

/-! ## Composition Registry resolution (modelled from the spec) -/

/-- A decoded protocol layer: a type tag, the raw bytes the layer owns,
and at most one child layer chosen by the Composition Registry. -/
inductive LayerNode where
  | node (type_tag : String) (raw_bytes : List Nat) (child : Option LayerNode)
  deriving Repr

/-- Depth of an optional layer: 0 for no layer. -/
def depthOpt : Option LayerNode → Nat
  | none => 0
  | some (.node _ _ c) => 1 + depthOpt c

/-- Depth of a layer tree (each node has at most one child). -/
def LayerNode.depth : LayerNode → Nat
  | .node _ _ c => 1 + depthOpt c

/-- The `bind_layers` declarations of `examples/diag_interceptor.py`
(lines 33-38) as (parent, child) pairs, in declaration order. The last
pair binds `SAPDiagItem` to itself: the self-referential composition the
resolution bound exists for. -/
def diag_bindings : List (String × String) :=
  [("SAPNI", "SAPDiag"), ("SAPNI", "SAPDiagDP"), ("SAPDiagDP", "SAPDiag"),
   ("SAPDiag", "SAPDiagItem"), ("SAPDiagItem", "SAPDiagItem")]

/-- Modelled from the spec: one resolution step of a self-referentially
bound item type. `step bytes` applies the registered rule for the type:
`some (raw, rest)` when the discriminator matches, where `raw` is the raw
bytes owned by the decoded item and `rest` what remains for the next
sibling; `none` when no rule matches. -/
abbrev StepFn := List Nat → Option (List Nat × List Nat)

/-- Modelled from the spec: bounded resolution of a self-referential layer
chain. Resolution uses an explicit iteration bound (the fuel), never
unconditional descent, and stops when no bytes remain or no rule
matches. -/
def resolveChainAux (tag : String) (step : StepFn) :
    Nat → List Nat → Option LayerNode
  | 0, _ => none
  | _, [] => none
  | fuel + 1, bytes =>
    match step bytes with
    | none => none
    | some (raw, rest) =>
      some (.node tag raw (resolveChainAux tag step fuel rest))

/-- Modelled from the spec: resolve a chain of self-bound items, with the
iteration bound set from the available byte count (each matched rule
consumes at least one byte, so the bound is never the stopping reason). -/
def resolveChain (tag : String) (step : StepFn) (bytes : List Nat) :
    Option LayerNode :=
  resolveChainAux tag step (bytes.length + 1) bytes

/-- Modelled from the spec: a minimal concrete item layout for the
self-referential screen-protocol item chain (the exact layout is
configuration data owned by the registrants, per the spec): a one-byte
discriminator tag, a one-byte payload length, then the payload. -/
def itemTag : Nat := 0x10

/-- Modelled from the spec: wire encoding of one item under the minimal
layout (requires the payload to fit the one-byte length field). -/
def encodeItem (payload : List Nat) : List Nat :=
  itemTag :: payload.length % 256 :: payload

/-- Wire encoding of a chain of sibling items. -/
def encodeItemChain (items : List (List Nat)) : List Nat :=
  (items.map encodeItem).flatten

/-- Modelled from the spec: the registered rule for the self-bound item
type. The discriminator matches when the leading byte is the item tag and
the announced payload is fully available; the rule then consumes exactly
one item. -/
def itemStep : StepFn
  | tagByte :: lenByte :: rest =>
    if tagByte == itemTag && lenByte ≤ rest.length then
      some (tagByte :: lenByte :: rest.take lenByte, rest.drop lenByte)
    else none
  | _ => none

/-! ## `examples/diag_interceptor.py`: the client-direction hook -/

/-- A screen-protocol atom as seen by the hook, after full resolution:
the hidden-input flag `attr_DIAG_BSD_INVISIBLE` and the field text. -/
structure DiagAtom where
  attr_DIAG_BSD_INVISIBLE : Bool
  text : String
  deriving DecidableEq, Repr

/-- The value carried by one resolved Diag item: a list of atoms for an
atom-container item, opaque bytes otherwise. -/
inductive DiagItemValue where
  | atoms (items : List DiagAtom)
  | opaque_bytes (raw : List Nat)
  deriving DecidableEq, Repr

/-- One resolved Diag item of the layer tree: its three discriminator
bytes (type, id, sid) and its resolved value. -/
structure DiagItem where
  item_type : Nat
  item_id : Nat
  item_sid : Nat
  item_value : DiagItemValue
  deriving DecidableEq, Repr

/-- A relayed message as delivered to the hooks: the fully resolved list
of Diag items of the `SAPDiag` layer. -/
structure DiagPacket where
  items : List DiagItem
  deriving DecidableEq, Repr

/-- `packet[SAPDiag].get_item(0x12, 0x09, 0x02)`: the items whose
type/id/sid discriminators match the requested triple, in message
order. -/
def get_item (p : DiagPacket) (t i s : Nat) : List DiagItem :=
  p.items.filter fun it =>
    it.item_type == t && it.item_id == i && it.item_sid == s

/-- The atoms stored in an item value (`atom_item.item_value.items`);
empty for a non-atom value. -/
def DiagItemValue.itemsOf : DiagItemValue → List DiagAtom
  | .atoms xs => xs
  | .opaque_bytes _ => []

/-- The inner loop of `filter_client` (lines 52-59): each atom prints a
password-field line when its invisible flag is set, a regular-field line
otherwise. -/
def printAtoms : List DiagAtom → List String
  | [] => []
  | a :: rest =>
    (if a.attr_DIAG_BSD_INVISIBLE then
      "\tPassword field:\t" ++ a.text
    else
      "\tRegular field:\t" ++ a.text) :: printAtoms rest

/-- The outer loop of `filter_client` (lines 52-59): iterate over the
matched atom items. -/
def printAtomItems : List DiagItem → List String
  | [] => []
  | it :: rest => printAtoms it.item_value.itemsOf ++ printAtomItems rest

/-- `filter_client` (lines 45-62): collect the Atom items, print their
fields (with a header when any matched), and return the original packet
unchanged for forwarding. First component: the forwarded packet; second:
the printed lines. -/
def filter_client (p : DiagPacket) : DiagPacket × List String :=
  let atoms := get_item p 0x12 0x09 0x02
  (p, if atoms.length > 0 then
        "[*] User input:" :: printAtomItems atoms
      else [])

/-- All atoms of the matched atom items of a packet, in message order
(the reference enumeration the hook output is compared against). -/
def allAtoms (p : DiagPacket) : List DiagAtom :=
  ((get_item p 0x12 0x09 0x02).map (fun it => it.item_value.itemsOf)).flatten

/-! ## Authentication Negotiator handshake states (modelled from the spec) -/

/-- The `HandshakeSession` states from the spec data model. -/
inductive HState where
  | init
  | connected
  | capabilitiesExchanged
  | challengeSent
  | authenticated
  | failed
  deriving DecidableEq, Repr

/-- Modelled from the spec: one step of the Authentication Negotiator.
`Init → Connected` opens the connection; `Connected →
CapabilitiesExchanged` exchanges version information;
`CapabilitiesExchanged → ChallengeSent` sends the method-specific proof;
`ChallengeSent` ends in `Authenticated` when the server accepts the
first SCRAM proof, else `Failed`; terminal states do not move. -/
def hstep (serverAccepts : Bool) : HState → HState
  | .init => .connected
  | .connected => .capabilitiesExchanged
  | .capabilitiesExchanged => .challengeSent
  | .challengeSent => if serverAccepts then .authenticated else .failed
  | .authenticated => .authenticated
  | .failed => .failed

/-- Whether a handshake state is terminal. -/
def HState.terminal : HState → Bool
  | .authenticated => true
  | .failed => true
  | _ => false

/-- Modelled from the spec: drive the negotiator from a state until a
terminal state, recording every state visited (bounded by fuel). -/
def driveAux (serverAccepts : Bool) : Nat → HState → List HState
  | 0, s => [s]
  | fuel + 1, s =>
    if s.terminal then [s]
    else s :: driveAux serverAccepts fuel (hstep serverAccepts s)

/-- Modelled from the spec: a full handshake run from `Init`; six states
exist, so fuel 6 can never be the stopping reason. -/
def handshake_run (serverAccepts : Bool) : List HState :=
  driveAux serverAccepts 6 .init

/-! ## Connection setup ordering (modelled from the spec) -/

/-- Observable wire-level events of a connection attempt. -/
inductive WireEvent where
  | tcpOpen
  | tlsEstablished
  | protocolBytes (what : String)
  deriving DecidableEq, Repr

/-- Modelled from the spec: `Init → Connected` opens the underlying
connection and, when a transport-security upgrade was requested, performs
the upgrade before any protocol bytes are exchanged. -/
def connect_events (tls : Bool) : List WireEvent :=
  if tls then [.tcpOpen, .tlsEstablished] else [.tcpOpen]

/-- Modelled from the spec: the wire events of a connection attempt
driven by `main` — the connect step, then the capability exchange, then
the authentication exchange, each of the latter two sending protocol
bytes via `send_receive`. -/
def handshake_events (tls : Bool) : List WireEvent :=
  connect_events tls ++
    [.protocolBytes "capabilities", .protocolBytes "authentication"]

/-- Whether a wire event carries protocol bytes. -/
def WireEvent.isProtocolBytes : WireEvent → Bool
  | .protocolBytes _ => true
  | _ => false

/-! ## Request-Response Primitive (modelled from the spec) -/

/-- A decoded top-level frame as seen by `send_receive`: its top-level
type tag and payload bytes. -/
structure SRNode where
  type_tag : String
  payload : List Nat
  deriving DecidableEq, Repr

/-- What the connection yields while `send_receive` waits: a decoded
frame, the connection closing, or the timeout elapsing. -/
inductive InEvent where
  | frame (n : SRNode)
  | closed
  | timeout
  deriving DecidableEq, Repr

/-- Outcome of `send_receive`. -/
inductive SRResult where
  | ok (n : SRNode)
  | connError (reason : String)
  | protocolViolation (got : String)
  deriving DecidableEq, Repr

/-- Modelled from the spec: after sending, `send_receive` reads frames
until one whose top-level type matches the expected type arrives, or the
connection closes or the timeout elapses, whichever happens first —
either of the latter is a `ConnectionError`. A mismatched frame received
while waiting is a protocol violation surfaced as an error, never
silently discarded. An exhausted event list is the stream end. -/
def send_receive (expected : String) : List InEvent → SRResult
  | [] => .connError "connection closed"
  | .closed :: _ => .connError "connection closed"
  | .timeout :: _ => .connError "timeout"
  | .frame n :: _ =>
    if n.type_tag == expected then .ok n
    else .protocolViolation n.type_tag

/-! ## Concrete option records used to instantiate the theorems -/

/-- A well-formed SCRAM option record except that no password was given. -/
def scramNoPasswordOptions : HdbOptions :=
  { remote_host := some "hanasrv", remote_port := 39015, route_string := none,
    tls := false, method := "SCRAMSHA256", username := some "SYSTEM",
    password := none, jwt_file := none, jwt_cert := none, jwt_issuer := none,
    jwt_claim := "user_name", saml_assertion := none, session_cookie := none,
    pid := "pysap", hostname := none, verbose := false }

/-- A SessionCookie option record with no cookie value. -/
def cookieNoCookieOptions : HdbOptions :=
  { scramNoPasswordOptions with method := "SessionCookie" }

/-- An option record naming a method outside the registered strategies. -/
def unknownMethodOptions : HdbOptions :=
  { scramNoPasswordOptions with method := "NTLM" }

/-- A SAML option record: no username supplied, assertion file given. -/
def samlOptions : HdbOptions :=
  { scramNoPasswordOptions with
    method := "SAML", username := none,
    saml_assertion := some "assertion.xml" }

/-- A JWT option record with both a ready-made token file and signing
material (certificate and issuer). -/
def jwtBothOptions : HdbOptions :=
  { scramNoPasswordOptions with
    method := "JWT", jwt_file := some "token.jwt",
    jwt_cert := some "key.pem", jwt_issuer := some "issuer" }

/-! ## Theorems -/

/-- C1: for every choice of authentication method, the structural
preconditions are checked before any network activity and an unmet
precondition aborts with an error naming the missing item: a SCRAM-family
method with no password is rejected, the SessionCookie method with no
cookie value is rejected, and a method outside the registered strategy
set is rejected as invalid; in each case `main` performs no connect and
creates no handshake state (its network-action list is empty). -/
theorem auth_structural_preconditions (py_jwt : Bool)
    (readFile : String → String) (sign : String → String → String → String)
    (o : HdbOptions) :
    (truthy o.remote_host = true → truthy o.username = true →
      (o.method = "SCRAMSHA256" ∨ o.method = "SCRAMPBKDF2SHA256") →
      truthy o.password = false →
      parse_options py_jwt o =
        .error "Password need to be provided for SCRAM-based authentication" ∧
      main_network_actions py_jwt readFile sign o = []) ∧
    (truthy o.remote_host = true → truthy o.username = true →
      o.method = "SessionCookie" → truthy o.session_cookie = false →
      parse_options py_jwt o =
        .error "Session cookie need to be provided for SessionCookie authentication" ∧
      main_network_actions py_jwt readFile sign o = []) ∧
    (truthy o.remote_host = true → o.method ∉ saphdb_auth_methods →
      parse_options py_jwt o = .error "Invalid authentication method" ∧
      main_network_actions py_jwt readFile sign o = []) := by
  refine ⟨?_, ?_, ?_⟩
  · intro hhost huser hm hpw
    have hparse : parse_options py_jwt o =
        .error "Password need to be provided for SCRAM-based authentication" := by
      rcases hm with hm | hm <;>
        simp [parse_options, saphdb_auth_methods, hm, hhost, huser, hpw]
    exact ⟨hparse, by simp [main_network_actions, hparse]⟩
  · intro hhost huser hm hck
    have hparse : parse_options py_jwt o =
        .error "Session cookie need to be provided for SessionCookie authentication" := by
      simp [parse_options, saphdb_auth_methods, hm, hhost, huser, hck]
    exact ⟨hparse, by simp [main_network_actions, hparse]⟩
  · intro hhost hm
    have hparse : parse_options py_jwt o = .error "Invalid authentication method" := by
      simp [parse_options, hhost, hm]
    exact ⟨hparse, by simp [main_network_actions, hparse]⟩

/-- Witness for C1: the three rejections at concrete option records. -/
theorem auth_structural_preconditions_witness :
    (truthy scramNoPasswordOptions.remote_host = true ∧
     truthy scramNoPasswordOptions.username = true ∧
     truthy scramNoPasswordOptions.password = false ∧
     parse_options true scramNoPasswordOptions =
       .error "Password need to be provided for SCRAM-based authentication" ∧
     main_network_actions true (fun _ => "") (fun _ _ _ => "")
       scramNoPasswordOptions = []) ∧
    (parse_options true cookieNoCookieOptions =
       .error "Session cookie need to be provided for SessionCookie authentication" ∧
     main_network_actions true (fun _ => "") (fun _ _ _ => "")
       cookieNoCookieOptions = []) ∧
    (unknownMethodOptions.method ∉ saphdb_auth_methods ∧
     parse_options true unknownMethodOptions =
       .error "Invalid authentication method" ∧
     main_network_actions true (fun _ => "") (fun _ _ _ => "")
       unknownMethodOptions = []) :=
  ⟨⟨by decide, by decide, by decide,
    (auth_structural_preconditions true (fun _ => "") (fun _ _ _ => "")
      scramNoPasswordOptions).1 (by decide) (by decide) (Or.inl rfl) (by decide)⟩,
   (auth_structural_preconditions true (fun _ => "") (fun _ _ _ => "")
      cookieNoCookieOptions).2.1 (by decide) (by decide) rfl (by decide),
   ⟨by decide,
    (auth_structural_preconditions true (fun _ => "") (fun _ _ _ => "")
      unknownMethodOptions).2.2 (by decide) (by decide)⟩⟩

/-- C2: decoding the encoding of any payload that fits the 4-byte length
field yields exactly the original payload, with nothing left over. -/
theorem frame_codec_roundtrip (payload : List Nat)
    (h : payload.length < 2 ^ 32) :
    decode (encode payload) = .frame payload [] := by
  have hlen : payload.length / 16777216 % 256 * 16777216 +
      payload.length / 65536 % 256 * 65536 +
      payload.length / 256 % 256 * 256 +
      payload.length % 256 = payload.length := by
    omega
  simp [encode, encodeLength, decode]
  rw [hlen]
  simp

/-- Witness for C2: the round trip at a concrete payload. -/
theorem frame_codec_roundtrip_witness :
    [1, 2, 3].length < 2 ^ 32 ∧
    decode (encode [1, 2, 3]) = .frame [1, 2, 3] [] :=
  ⟨by decide, frame_codec_roundtrip [1, 2, 3] (by decide)⟩

/-- C5: against a server that accepts the first SCRAM proof, the
handshake visits exactly Init, Connected, CapabilitiesExchanged,
ChallengeSent, Authenticated in that order, each state exactly once. -/
theorem handshake_success_path :
    handshake_run true =
      [.init, .connected, .capabilitiesExchanged, .challengeSent,
       .authenticated] ∧
    (handshake_run true).Nodup := by
  exact ⟨rfl, by decide⟩

/-- C6: when the transport-security upgrade was requested, `main` picks
the TLS connection class, the secure channel is established, and no
protocol bytes appear before it in the event sequence of the connection
attempt. -/
theorem tls_before_protocol_bytes :
    connection_class true = "SAPHDBTLSConnection" ∧
    WireEvent.tlsEstablished ∈ handshake_events true ∧
    ((handshake_events true).takeWhile
        (fun e => !(e == WireEvent.tlsEstablished))).all
      (fun e => !e.isProtocolBytes) = true := by
  refine ⟨rfl, by decide, by decide⟩

/-- C7: `send_receive` returns the awaited node only when its top-level
type matches the expected type; a closed connection or an elapsed timeout
(or an exhausted stream) yields a ConnectionError; and a mismatched frame
received while waiting is surfaced as a protocol violation, never
silently discarded. -/
theorem send_receive_outcomes (expected : String) (events : List InEvent) :
    (∀ n, send_receive expected events = .ok n → n.type_tag = expected) ∧
    (events = [] ∨ events.head? = some .closed ∨
        events.head? = some .timeout →
      ∃ r, send_receive expected events = .connError r) ∧
    (∀ n rest, events = .frame n :: rest → n.type_tag ≠ expected →
      send_receive expected events = .protocolViolation n.type_tag) := by
  refine ⟨?_, ?_, ?_⟩
  · intro n h
    match events with
    | [] => simp [send_receive] at h
    | .closed :: _ => simp [send_receive] at h
    | .timeout :: _ => simp [send_receive] at h
    | .frame m :: _ =>
      by_cases hm : m.type_tag = expected
      · simp [send_receive, hm] at h
        rw [← h]
        exact hm
      · simp [send_receive, hm] at h
  · intro h
    match events with
    | [] => exact ⟨"connection closed", rfl⟩
    | .closed :: _ => exact ⟨"connection closed", rfl⟩
    | .timeout :: _ => exact ⟨"timeout", rfl⟩
    | .frame m :: _ => simp at h
  · intro n rest hev hne
    subst hev
    simp [send_receive, hne]

/-- Witness for C7: a mismatched first frame is an error and a closed
stream is a ConnectionError, at concrete inputs. -/
theorem send_receive_outcomes_witness :
    send_receive "SAPMS" [.frame ⟨"SAPNI", []⟩] =
      .protocolViolation "SAPNI" ∧
    (∃ r, send_receive "SAPMS" [] = .connError r) :=
  ⟨(send_receive_outcomes "SAPMS" [.frame ⟨"SAPNI", []⟩]).2.2
      ⟨"SAPNI", []⟩ [] rfl (by decide),
   (send_receive_outcomes "SAPMS" []).2.1 (Or.inl rfl)⟩

/-- C8: for assertion-token methods the opaque token read from the file
is the credential; the username accompanies it explicitly for JWT, and is
sent empty for SAML, where the server derives the identity from the
assertion itself. -/
theorem assertion_token_credentials (readFile : String → String)
    (sign : String → String → String → String) (o : HdbOptions) :
    (o.method = "SAML" →
      select_auth_method readFile sign o =
        some (.samlToken "" (readFile (o.saml_assertion.getD "")))) ∧
    (o.method = "JWT" → truthy o.jwt_file = true →
      select_auth_method readFile sign o =
        some (.jwtToken (o.username.getD "")
          (readFile (o.jwt_file.getD "")))) := by
  constructor
  · intro hm
    simp [select_auth_method, hm]
  · intro hm hf
    simp [select_auth_method, hm, hf]

/-- Witness for C8: concrete SAML and JWT option records. -/
theorem assertion_token_credentials_witness :
    samlOptions.method = "SAML" ∧
    select_auth_method (fun _ => "tok") (fun _ _ _ => "minted") samlOptions =
      some (.samlToken "" "tok") ∧
    jwtBothOptions.method = "JWT" ∧ truthy jwtBothOptions.jwt_file = true ∧
    select_auth_method (fun _ => "tok") (fun _ _ _ => "minted")
      jwtBothOptions = some (.jwtToken "SYSTEM" "tok") :=
  ⟨rfl,
   (assertion_token_credentials (fun _ => "tok") (fun _ _ _ => "minted")
      samlOptions).1 rfl,
   rfl, by decide,
   (assertion_token_credentials (fun _ => "tok") (fun _ _ _ => "minted")
      jwtBothOptions).2 rfl (by decide)⟩

/-- C9: the SAML method value always carries the empty-string username,
whatever username was supplied; SAML is the only registered method whose
username requirement is waived by validation — every other registered
method without a username is rejected with the username error, while SAML
without a username validates. -/
theorem saml_username_never_sent (py_jwt : Bool)
    (readFile : String → String) (sign : String → String → String → String)
    (o : HdbOptions) :
    (o.method = "SAML" → ∀ m,
      select_auth_method readFile sign o = some m → m.username = "") ∧
    (o.method = "SAML" → truthy o.remote_host = true →
      truthy o.saml_assertion = true → parse_options py_jwt o = .ok o) ∧
    ((o.method = "SCRAMSHA256" ∨ o.method = "SCRAMPBKDF2SHA256" ∨
        o.method = "JWT" ∨ o.method = "SessionCookie") →
      truthy o.remote_host = true → truthy o.username = false →
      parse_options py_jwt o = .error "Username needs to be provided") := by
  refine ⟨?_, ?_, ?_⟩
  · intro hm m hsel
    simp [select_auth_method, hm] at hsel
    rw [← hsel]
    rfl
  · intro hm hhost hsaml
    simp [parse_options, saphdb_auth_methods, hm, hhost, hsaml]
  · intro hm hhost huser
    rcases hm with hm | hm | hm | hm <;>
      simp [parse_options, saphdb_auth_methods, hm, hhost, huser]

/-- Witness for C9: a SAML record with a username supplied still yields
an empty-username method value; the record validates without a username;
a SCRAM record without a username is rejected. -/
theorem saml_username_never_sent_witness :
    (select_auth_method (fun _ => "tok") (fun _ _ _ => "minted")
       { samlOptions with username := some "alice" } =
         some (.samlToken "" "tok") →
     AuthMethod.username (.samlToken "" "tok") = "") ∧
    parse_options true samlOptions = .ok samlOptions ∧
    parse_options true { scramNoPasswordOptions with username := none } =
      .error "Username needs to be provided" :=
  ⟨(saml_username_never_sent true (fun _ => "tok") (fun _ _ _ => "minted")
      { samlOptions with username := some "alice" }).1 rfl
      (.samlToken "" "tok"),
   (saml_username_never_sent true (fun _ => "tok") (fun _ _ _ => "minted")
      samlOptions).2.1 rfl (by decide) (by decide),
   (saml_username_never_sent true (fun _ => "tok") (fun _ _ _ => "minted")
      { scramNoPasswordOptions with username := none }).2.2
      (Or.inl rfl) (by decide) (by decide)⟩

/-- C10: with both a ready-made JWT file and signing material supplied,
the token read from the file is used and the external signer is never
consulted: the result is the file token and does not depend on the
signer. -/
theorem jwt_file_precedence (readFile : String → String)
    (sign sign2 : String → String → String → String) (o : HdbOptions)
    (hm : o.method = "JWT") (hf : truthy o.jwt_file = true) :
    select_auth_method readFile sign o =
      some (.jwtToken (o.username.getD "")
        (readFile (o.jwt_file.getD ""))) ∧
    select_auth_method readFile sign o =
      select_auth_method readFile sign2 o := by
  constructor <;> simp [select_auth_method, hm, hf]

/-- Witness for C10: the record with both token file and certificate
yields the file token under two different signers. -/
theorem jwt_file_precedence_witness :
    jwtBothOptions.method = "JWT" ∧ truthy jwtBothOptions.jwt_file = true ∧
    (select_auth_method (fun _ => "tok") (fun _ _ _ => "mintedA")
       jwtBothOptions = some (.jwtToken "SYSTEM" "tok") ∧
     select_auth_method (fun _ => "tok") (fun _ _ _ => "mintedA")
       jwtBothOptions =
       select_auth_method (fun _ => "tok") (fun _ _ _ => "mintedB")
         jwtBothOptions) :=
  ⟨rfl, by decide,
   jwt_file_precedence (fun _ => "tok") (fun _ _ _ => "mintedA")
     (fun _ _ _ => "mintedB") jwtBothOptions rfl (by decide)⟩

/-- The inner printing loop classifies each atom by its own flag. -/
lemma printAtoms_eq_map (xs : List DiagAtom) :
    printAtoms xs = xs.map (fun a =>
      if a.attr_DIAG_BSD_INVISIBLE then "\tPassword field:\t" ++ a.text
      else "\tRegular field:\t" ++ a.text) := by
  induction xs with
  | nil => rfl
  | cons a rest ih => simp [printAtoms, ih]

/-- The nested printing loops equal one classification pass over the
concatenated atoms of the matched items. -/
lemma printAtomItems_eq_map (l : List DiagItem) :
    printAtomItems l =
      ((l.map fun it => it.item_value.itemsOf).flatten).map (fun a =>
        if a.attr_DIAG_BSD_INVISIBLE then "\tPassword field:\t" ++ a.text
        else "\tRegular field:\t" ++ a.text) := by
  induction l with
  | nil => rfl
  | cons it rest ih => simp [printAtomItems, printAtoms_eq_map, ih]

/-- C4: the client-direction hook receives the message as the fully
resolved item tree and returns it unchanged for forwarding, and its
output classifies every atom of every matched item by that atom's own
hidden-input flag, in message order — so interleaved items with mixed
flag values are each observed correctly. -/
theorem hook_observes_item_flags (p : DiagPacket) :
    (filter_client p).1 = p ∧
    (filter_client p).2 =
      (if 0 < (get_item p 0x12 0x09 0x02).length then
        "[*] User input:" :: (allAtoms p).map (fun a =>
          if a.attr_DIAG_BSD_INVISIBLE then "\tPassword field:\t" ++ a.text
          else "\tRegular field:\t" ++ a.text)
      else []) := by
  refine ⟨rfl, ?_⟩
  by_cases h : 0 < (get_item p 0x12 0x09 0x02).length
  · simp [filter_client, allAtoms, h, printAtomItems_eq_map]
  · simp [filter_client, h]

/-- Length of one encoded item chain link. -/
lemma encodeItemChain_cons (p : List Nat) (ps : List (List Nat)) :
    encodeItemChain (p :: ps) =
      itemTag :: p.length % 256 :: (p ++ encodeItemChain ps) := by
  simp [encodeItemChain, encodeItem]

/-- The item rule matches the head of a non-empty encoded chain and
consumes exactly the first item. -/
lemma itemStep_chain_cons (p : List Nat) (ps : List (List Nat))
    (trailer : List Nat) (hp : p.length < 256) :
    itemStep (encodeItemChain (p :: ps) ++ trailer) =
      some (itemTag :: p.length :: p, encodeItemChain ps ++ trailer) := by
  have hmod : p.length % 256 = p.length := Nat.mod_eq_of_lt hp
  simp only [encodeItemChain_cons, List.cons_append, List.append_assoc,
    itemStep, hmod]
  have hle : p.length ≤ (p ++ (encodeItemChain ps ++ trailer)).length := by
    simp
  simp [hle, List.take_left, List.drop_left]

/-- Bounded resolution of an encoded chain of items, with any
non-matching trailer, yields exactly one layer per item as long as the
iteration bound exceeds the byte count. -/
lemma resolveChainAux_chain_depth (items : List (List Nat)) :
    ∀ (trailer : List Nat) (fuel : Nat),
      (∀ p ∈ items, p.length < 256) → itemStep trailer = none →
      (encodeItemChain items ++ trailer).length < fuel →
      depthOpt (resolveChainAux "SAPDiagItem" itemStep fuel
        (encodeItemChain items ++ trailer)) = items.length := by
  induction items with
  | nil =>
    intro trailer fuel _ ht hf
    simp only [encodeItemChain, List.map_nil, List.flatten_nil,
      List.nil_append] at *
    cases fuel with
    | zero => omega
    | succ f =>
      cases trailer with
      | nil => simp [resolveChainAux, depthOpt]
      | cons b bs =>
        simp [resolveChainAux, ht, depthOpt]
  | cons p ps ih =>
    intro trailer fuel hp ht hf
    have hp0 : p.length < 256 := hp p (by simp)
    have hps : ∀ q ∈ ps, q.length < 256 := fun q hq => hp q (by simp [hq])
    have hbytes : encodeItemChain (p :: ps) ++ trailer =
        itemTag :: p.length % 256 :: (p ++ (encodeItemChain ps ++ trailer)) := by
      simp [encodeItemChain_cons]
    cases fuel with
    | zero => omega
    | succ f =>
      have hstep := itemStep_chain_cons p ps trailer hp0
      have hfl : (encodeItemChain ps ++ trailer).length < f := by
        have hlen : (encodeItemChain (p :: ps) ++ trailer).length =
            2 + p.length + (encodeItemChain ps ++ trailer).length := by
          simp [hbytes]
          omega
        omega
      have hunfold : resolveChainAux "SAPDiagItem" itemStep (f + 1)
          (encodeItemChain (p :: ps) ++ trailer) =
          some (.node "SAPDiagItem" (itemTag :: p.length :: p)
            (resolveChainAux "SAPDiagItem" itemStep f
              (encodeItemChain ps ++ trailer))) := by
        rw [hbytes] at hstep ⊢
        simp only [resolveChainAux]
        rw [hstep]
      rw [hunfold]
      have hdep := ih trailer f hps ht hfl
      simp [depthOpt, hdep]
      omega

/-- C3: the interceptor binds the item layer to itself
(`bind_layers(SAPDiagItem, SAPDiagItem)`), and resolving such a
self-bound chain of N encoded items followed by a non-matching trailer
always terminates with a layer tree of depth exactly N — the explicit
iteration bound is never the reason resolution stops, for any N. -/
theorem self_chain_resolution_depth (items : List (List Nat))
    (trailer : List Nat) (hp : ∀ p ∈ items, p.length < 256)
    (ht : itemStep trailer = none) :
    ("SAPDiagItem", "SAPDiagItem") ∈ diag_bindings ∧
    depthOpt (resolveChain "SAPDiagItem" itemStep
      (encodeItemChain items ++ trailer)) = items.length := by
  refine ⟨by decide, ?_⟩
  have := resolveChainAux_chain_depth items trailer
    ((encodeItemChain items ++ trailer).length + 1) hp ht
    (Nat.lt_succ_self _)
  simpa [resolveChain] using this

/-- Witness for C3: a two-item chain with a non-matching trailer byte
resolves to depth 2. -/
theorem self_chain_resolution_depth_witness :
    (∀ p ∈ [[7], [8, 9]], List.length p < 256) ∧
    itemStep [153, 0] = none ∧
    (("SAPDiagItem", "SAPDiagItem") ∈ diag_bindings ∧
     depthOpt (resolveChain "SAPDiagItem" itemStep
       (encodeItemChain [[7], [8, 9]] ++ [153, 0])) = 2) :=
  ⟨by decide, by decide,
   self_chain_resolution_depth [[7], [8, 9]] [153, 0]
     (by decide) (by decide)⟩

end Pysap
